import Mathlib

/-!
Verification of the command-dispatch gateway of the MCP nmap scanner
(`src/mcp-security/mcp-security.py`).

The gateway exposes a fixed catalog of nmap operations.  Every catalog
operation builds an argument vector (a Python list of strings) and hands it
to `run_nmap_command`, which calls `subprocess.run(["nmap"] + args, ...,
timeout=60)` without shell interpretation and returns `result.stdout`, or an
error string built from the caught exception.  One extra entry point,
`execute_custom_nmap_command`, runs a raw command line with `shell=True` and
`timeout=120` and formats stdout/stderr/exit code into a text result.

The embedding below models the pure part of this code exactly: the argument
builders, the request shape handed to `subprocess.run`, and the translation
of a process outcome (completion, timeout, raised exception) into the text
each Python function returns.
-/

namespace McpSecurity

/-- The line-break characters recognised by Python `str.splitlines`
(`\n`, `\r`, `\v`, `\f`, FS, GS, RS, NEL, LINE SEPARATOR, PARAGRAPH
SEPARATOR); `\r\n` is treated as a single break by the function below. -/
def isLineBreak (c : Char) : Bool :=
  c = '\x0a' || c = '\x0d' || c = '\x0b' || c = '\x0c' ||
  c = '\x1c' || c = '\x1d' || c = '\x1e' || c = '\x85' ||
  c = '\u2028' || c = '\u2029'

/-- Worker for `pySplitlines`: `acc` holds the current line, reversed. -/
def splitlinesAux : List Char → List Char → List String
  | [], acc => if acc = [] then [] else [acc.reverse.asString]
  | '\x0d' :: '\x0a' :: rest, acc => acc.reverse.asString :: splitlinesAux rest []
  | c :: rest, acc =>
      if isLineBreak c then acc.reverse.asString :: splitlinesAux rest []
      else splitlinesAux rest (c :: acc)

/-- Python `s.splitlines()`: split on universal line breaks, `\r\n` counting
as one break; a trailing break does not create a final empty line, and the
empty string yields the empty list. -/
def pySplitlines (s : String) : List String :=
  splitlinesAux s.data []

/-- The ASCII whitespace characters of Python `str.split()` with no
separator argument. -/
def isPySpace (c : Char) : Bool :=
  c = ' ' || c = '\x09' || c = '\x0a' || c = '\x0d' || c = '\x0b' || c = '\x0c'

/-- Worker for `pySplitWhitespace`. -/
def splitWsAux : List Char → List Char → List String
  | [], acc => if acc = [] then [] else [acc.reverse.asString]
  | c :: rest, acc =>
      if isPySpace c then
        if acc = [] then splitWsAux rest []
        else acc.reverse.asString :: splitWsAux rest []
      else splitWsAux rest (c :: acc)

/-- Python `s.split()` (no argument): split on runs of whitespace,
discarding empty fields. -/
def pySplitWhitespace (s : String) : List String :=
  splitWsAux s.data []

/-- Python list slice `l[:limit]` for an `int` limit: a non-negative limit
takes that many leading elements (clamped to the length); a negative limit
drops that many trailing elements (down to the empty list). -/
def pySlicePrefix (l : List String) (limit : Int) : List String :=
  if 0 ≤ limit then l.take limit.toNat
  else l.take (l.length - (-limit).toNat)

/-- What `subprocess.run` did for one invocation: the process completed
(with captured stdout, stderr and exit code), the deadline expired
(`subprocess.TimeoutExpired`, which carries any partial stdout captured so
far), or some other exception was raised with the given message. -/
inductive ProcOutcome
  | completed (stdout stderr : String) (exitCode : Int)
  | timedOut (partialStdout : String)
  | raised (msg : String)
deriving DecidableEq

/-- `outcome` is a failure (timeout or raised exception), not a completed
process. -/
def ProcOutcome.isFailure : ProcOutcome → Bool
  | .completed _ _ _ => false
  | .timedOut _ => true
  | .raised _ => true

/-- Simplified Python `repr` of a string: the text between single quotes.
(The escaping Python applies when the text itself holds a quote is not
modelled; no property below depends on it.) -/
def pyReprStr (s : String) : String :=
  "\x27" ++ s ++ "\x27"

/-- Simplified Python `repr` of a list of strings, as interpolated by
`"%s" % cmd`. -/
def pyListRepr (cmd : List String) : String :=
  "[" ++ String.intercalate ", " (cmd.map pyReprStr) ++ "]"

/-- `str(e)` for `subprocess.TimeoutExpired(cmd, timeout)`:
`"Command '%s' timed out after %s seconds" % (cmd, timeout)`. -/
def timeoutExpiredMsg (cmd : List String) (timeoutSeconds : Nat) : String :=
  "Command \x27" ++ pyListRepr cmd ++ "\x27 timed out after " ++
    toString timeoutSeconds ++ " seconds"

/-- The catalog of `@mcp.tool()` operations (every tool except the raw
`execute_custom_nmap_command`), each constructor carrying the tool's
user-supplied parameters.  Integer parameters are Python `int`s, modelled
as `Int`. -/
inductive Op
  | simple_scan (target : String)
  | port_scan (target ports : String)
  | os_detection (target : String)
  | full_scan (target : String)
  | ping_scan (target : String)
  | scan_specific_port (target port : String)
  | service_version_detection (target : String)
  | aggressive_scan (target : String)
  | scan_port_range (target port_range : String)
  | http_title_scan (target : String)
  | traceroute_scan (target : String)
  | vulscan_basic (target database : String)
  | vulscan_output_limit (target database : String) (limit : Int)
  | vulscan_interactive (target database : String)
  | vulscan_custom_output (target database custom_template : String)
  | ping_subnet_scan (subnet : String)
  | single_host_scan (target : String)
  | stealth_scan (target : String)
  | scan_multiple_hosts (hosts : String)
  | scan_ip_range (ip_range : String)
  | scan_tcp_port (target port : String)
  | scan_top_ports (target : String) (num_ports : Int)
  | scan_from_file (file_path : String)
  | verbose_scan (target : String)
  | scan_with_normal_output (target output_file : String)
  | scan_with_xml_output (target output_file : String)
  | scan_with_all_formats (target output_base : String)
  | nmap_help
  | udp_scan (target : String)
  | fin_scan (target : String)
  | xmas_scan (target : String)
  | null_scan (target : String)
  | tcp_connect_scan (target : String)
  | stealth_scan_no_ping (target : String)
  | tcp_connect_scan_no_ping (target : String)
  | udp_scan_no_ping (target : String)
  | service_version_scan_no_ping (target : String)
  | aggressive_scan_no_ping (target : String)
  | port_scan_no_ping (target ports : String)
  | fin_scan_no_ping (target : String)
  | xmas_scan_no_ping (target : String)
  | null_scan_no_ping (target : String)
  | top_ports_scan_no_ping (target : String) (num_ports : Int)
deriving DecidableEq

/-- The `--script-args` element built by `vulscan_basic`:
`f"\"vulscandb={database}\""`. -/
def vulscanBasicScriptArgs (database : String) : String :=
  "\x22vulscandb=" ++ database ++ "\x22"

/-- The `--script-args` element built by `vulscan_output_limit`:
`f"\"vulscandb={database},vulscanshowall=0,vulscanoutput='{{id}} - {{title}}'\""`. -/
def vulscanLimitScriptArgs (database : String) : String :=
  "\x22vulscandb=" ++ database ++
    ",vulscanshowall=0,vulscanoutput=\x27\x7bid\x7d - \x7btitle\x7d\x27\x22"

/-- The `--script-args` element built by `vulscan_interactive`:
`f"\"vulscandb={database},vulscaninteractive=1\""`. -/
def vulscanInteractiveScriptArgs (database : String) : String :=
  "\x22vulscandb=" ++ database ++ ",vulscaninteractive=1\x22"

/-- The `--script-args` element built by `vulscan_custom_output`:
`f"\"vulscandb={database},vulscanoutput='{custom_template}'\""`. -/
def vulscanCustomScriptArgs (database custom_template : String) : String :=
  "\x22vulscandb=" ++ database ++ ",vulscanoutput=\x27" ++ custom_template ++ "\x27\x22"

/-- The argument list each tool passes to `run_nmap_command`, transcribed
from the body of each `@mcp.tool()` function.  `scan_multiple_hosts` splits
its input with `hosts.split()`; the two top-ports tools convert their
integer with `str(num_ports)`. -/
def buildArgs : Op → List String
  | .simple_scan target => ["-T4", target]
  | .port_scan target ports => ["-p", ports, "-T4", target]
  | .os_detection target => ["-O", target]
  | .full_scan target => ["-sS", "-sV", "-T4", "-A", target]
  | .ping_scan target => ["-sn", target]
  | .scan_specific_port target port => ["-p", port, "-T4", target]
  | .service_version_detection target => ["-sV", target]
  | .aggressive_scan target => ["-A", target]
  | .scan_port_range target port_range => ["-p", port_range, "-T4", target]
  | .http_title_scan target => ["-p", "80", "--script", "http-title", target]
  | .traceroute_scan target => ["--traceroute", target]
  | .vulscan_basic target database =>
      ["-sV", "--script=vulscan/vulscan.nse", "--script-args",
       vulscanBasicScriptArgs database, target]
  | .vulscan_output_limit target database _ =>
      ["-sV", "--script=vulscan/vulscan.nse", "--script-args",
       vulscanLimitScriptArgs database, target]
  | .vulscan_interactive target database =>
      ["-sV", "--script=vulscan/vulscan.nse", "--script-args",
       vulscanInteractiveScriptArgs database, target]
  | .vulscan_custom_output target database custom_template =>
      ["-sV", "--script=vulscan/vulscan.nse", "--script-args",
       vulscanCustomScriptArgs database custom_template, target]
  | .ping_subnet_scan subnet => ["-sP", subnet]
  | .single_host_scan target => [target]
  | .stealth_scan target => ["-sS", target]
  | .scan_multiple_hosts hosts => pySplitWhitespace hosts
  | .scan_ip_range ip_range => [ip_range]
  | .scan_tcp_port target port => ["-p", port, target]
  | .scan_top_ports target num_ports => ["--top-ports", toString num_ports, target]
  | .scan_from_file file_path => ["-iL", file_path]
  | .verbose_scan target => ["-v", target]
  | .scan_with_normal_output target output_file => ["-oN", output_file, target]
  | .scan_with_xml_output target output_file => ["-oX", output_file, target]
  | .scan_with_all_formats target output_base => ["-oA", output_base, target]
  | .nmap_help => ["-h"]
  | .udp_scan target => ["-sU", target]
  | .fin_scan target => ["-sF", target]
  | .xmas_scan target => ["-sX", target]
  | .null_scan target => ["-sN", target]
  | .tcp_connect_scan target => ["-sT", target]
  | .stealth_scan_no_ping target => ["-sS", "-Pn", target]
  | .tcp_connect_scan_no_ping target => ["-sT", "-Pn", target]
  | .udp_scan_no_ping target => ["-sU", "-Pn", target]
  | .service_version_scan_no_ping target => ["-sV", "-Pn", target]
  | .aggressive_scan_no_ping target => ["-A", "-Pn", target]
  | .port_scan_no_ping target ports => ["-p", ports, "-Pn", target]
  | .fin_scan_no_ping target => ["-sF", "-Pn", target]
  | .xmas_scan_no_ping target => ["-sX", "-Pn", target]
  | .null_scan_no_ping target => ["-sN", "-Pn", target]
  | .top_ports_scan_no_ping target num_ports =>
      ["--top-ports", toString num_ports, "-Pn", target]

/-- How the first argument reaches `subprocess.run`: either an argument
vector (a Python list, passed to process creation without a shell) or a
single command-line string run with `shell=True`. -/
inductive ProcInvocation
  | argVector (argv : List String)
  | shellString (cmd : String)
deriving DecidableEq

/-- The resolved request handed to `subprocess.run` for one call: the
invocation shape plus the `timeout=` keyword argument, in seconds. -/
structure ExecRequest where
  invocation : ProcInvocation
  timeoutSeconds : Nat
deriving DecidableEq

/-- Whether the request runs through shell interpretation
(`shell=True`). -/
def ExecRequest.usesShell (r : ExecRequest) : Bool :=
  match r.invocation with
  | .argVector _ => false
  | .shellString _ => true

/-- The request `run_nmap_command(args)` makes:
`subprocess.run(["nmap"] + args, capture_output=True, text=True,
timeout=60)` — an argument vector headed by the fixed binary name, no
`shell=` keyword (so no shell interpretation), 60-second timeout. -/
def nmapRequest (args : List String) : ExecRequest :=
  { invocation := .argVector ("nmap" :: args), timeoutSeconds := 60 }

/-- The request a catalog operation makes: its built argument list through
`run_nmap_command`. -/
def catalogRequest (op : Op) : ExecRequest :=
  nmapRequest (buildArgs op)

/-- The request `execute_custom_nmap_command(command)` makes:
`subprocess.run(command, shell=True, capture_output=True, text=True,
timeout=120)`. -/
def rawRequest (command : String) : ExecRequest :=
  { invocation := .shellString command, timeoutSeconds := 120 }

/-- The text `run_nmap_command(args)` returns for each outcome of its
`subprocess.run` call: a completed process yields `result.stdout`
unconditionally (stderr and the exit code are never consulted); a timeout
or any other exception is caught by the single `except Exception` handler,
which returns `f"Error running Nmap: {str(e)}"`. -/
def runNmapCommand (args : List String) (outcome : ProcOutcome) : String :=
  match outcome with
  | .completed stdout _ _ => stdout
  | .timedOut _ =>
      "Error running Nmap: " ++ timeoutExpiredMsg ("nmap" :: args) 60
  | .raised msg => "Error running Nmap: " ++ msg

/-- The body of `vulscan_output_limit(target, database, limit)` given the
outcome of its process call: run `run_nmap_command`, split the full output
into lines, keep `output_lines[:limit]`, and re-join with `"\n"`. -/
def vulscanOutputLimitRun (target database : String) (limit : Int)
    (outcome : ProcOutcome) : String :=
  let full_output := runNmapCommand
    (buildArgs (.vulscan_output_limit target database limit)) outcome
  String.intercalate "\n" (pySlicePrefix (pySplitlines full_output) limit)

/-- The fixed sentinel `execute_custom_nmap_command` returns when stdout and
stderr are empty and the exit code is zero. -/
def noOutputSentinel : String :=
  "Command executed successfully with no output."

/-- The text `execute_custom_nmap_command(command)` returns for each
outcome: on completion it concatenates a `STDOUT:` section if stdout is
non-empty, a `STDERR:` section if stderr is non-empty, and a
`Return Code:` line if the exit code is non-zero, falling back to the
"no output" sentinel when all three are absent; `subprocess.TimeoutExpired`
and other exceptions get their own handlers. -/
def executeCustomNmapCommand (outcome : ProcOutcome) : String :=
  match outcome with
  | .completed stdout stderr exitCode =>
      let output :=
        (if stdout = "" then "" else "STDOUT:\n" ++ stdout ++ "\n") ++
        (if stderr = "" then "" else "STDERR:\n" ++ stderr ++ "\n") ++
        (if exitCode = 0 then "" else "Return Code: " ++ toString exitCode ++ "\n")
      if output = "" then noOutputSentinel else output
  | .timedOut _ => "Error: Command timed out after 120 seconds"
  | .raised msg => "Error executing command: " ++ msg

/-- Dispatch of one catalog operation against an executor (the behaviour of
`subprocess.run`, as a function from the request to its outcome): every
tool body calls `run_nmap_command` on its built argument list;
`vulscan_output_limit` additionally post-processes the returned text. -/
def dispatchCatalog (op : Op) (executor : ExecRequest → ProcOutcome) : String :=
  match op with
  | .vulscan_output_limit target database limit =>
      vulscanOutputLimitRun target database limit (executor (catalogRequest op))
  | _ => runNmapCommand (buildArgs op) (executor (catalogRequest op))

/-- Dispatch of the raw path against an executor. -/
def dispatchRaw (command : String) (executor : ExecRequest → ProcOutcome) : String :=
  executeCustomNmapCommand (executor (rawRequest command))

/-- The user-supplied parameter values of an operation, as the strings the
spec expects to find in the argument vector (integer parameters appear via
their decimal rendering `str(n)`; `vulscan_output_limit`'s `limit` never
reaches the vector and is not listed). -/
def userValues : Op → List String
  | .simple_scan target => [target]
  | .port_scan target ports => [ports, target]
  | .os_detection target => [target]
  | .full_scan target => [target]
  | .ping_scan target => [target]
  | .scan_specific_port target port => [port, target]
  | .service_version_detection target => [target]
  | .aggressive_scan target => [target]
  | .scan_port_range target port_range => [port_range, target]
  | .http_title_scan target => [target]
  | .traceroute_scan target => [target]
  | .vulscan_basic target database => [database, target]
  | .vulscan_output_limit target database _ => [database, target]
  | .vulscan_interactive target database => [database, target]
  | .vulscan_custom_output target database custom_template =>
      [database, custom_template, target]
  | .ping_subnet_scan subnet => [subnet]
  | .single_host_scan target => [target]
  | .stealth_scan target => [target]
  | .scan_multiple_hosts hosts => [hosts]
  | .scan_ip_range ip_range => [ip_range]
  | .scan_tcp_port target port => [port, target]
  | .scan_top_ports target num_ports => [toString num_ports, target]
  | .scan_from_file file_path => [file_path]
  | .verbose_scan target => [target]
  | .scan_with_normal_output target output_file => [output_file, target]
  | .scan_with_xml_output target output_file => [output_file, target]
  | .scan_with_all_formats target output_base => [output_base, target]
  | .nmap_help => []
  | .udp_scan target => [target]
  | .fin_scan target => [target]
  | .xmas_scan target => [target]
  | .null_scan target => [target]
  | .tcp_connect_scan target => [target]
  | .stealth_scan_no_ping target => [target]
  | .tcp_connect_scan_no_ping target => [target]
  | .udp_scan_no_ping target => [target]
  | .service_version_scan_no_ping target => [target]
  | .aggressive_scan_no_ping target => [target]
  | .port_scan_no_ping target ports => [ports, target]
  | .fin_scan_no_ping target => [target]
  | .xmas_scan_no_ping target => [target]
  | .null_scan_no_ping target => [target]
  | .top_ports_scan_no_ping target num_ports => [toString num_ports, target]

/-- The fixed (non-user-supplied) elements of an operation's argument
vector.  For the vulscan operations the combined `--script-args` element is
neither purely fixed nor purely user-supplied, so only the genuinely fixed
flags are listed; `scan_multiple_hosts` has none. -/
def opFlags : Op → List String
  | .simple_scan _ => ["-T4"]
  | .port_scan _ _ => ["-p", "-T4"]
  | .os_detection _ => ["-O"]
  | .full_scan _ => ["-sS", "-sV", "-T4", "-A"]
  | .ping_scan _ => ["-sn"]
  | .scan_specific_port _ _ => ["-p", "-T4"]
  | .service_version_detection _ => ["-sV"]
  | .aggressive_scan _ => ["-A"]
  | .scan_port_range _ _ => ["-p", "-T4"]
  | .http_title_scan _ => ["-p", "80", "--script", "http-title"]
  | .traceroute_scan _ => ["--traceroute"]
  | .vulscan_basic _ _ => ["-sV", "--script=vulscan/vulscan.nse", "--script-args"]
  | .vulscan_output_limit _ _ _ =>
      ["-sV", "--script=vulscan/vulscan.nse", "--script-args"]
  | .vulscan_interactive _ _ =>
      ["-sV", "--script=vulscan/vulscan.nse", "--script-args"]
  | .vulscan_custom_output _ _ _ =>
      ["-sV", "--script=vulscan/vulscan.nse", "--script-args"]
  | .ping_subnet_scan _ => ["-sP"]
  | .single_host_scan _ => []
  | .stealth_scan _ => ["-sS"]
  | .scan_multiple_hosts _ => []
  | .scan_ip_range _ => []
  | .scan_tcp_port _ _ => ["-p"]
  | .scan_top_ports _ _ => ["--top-ports"]
  | .scan_from_file _ => ["-iL"]
  | .verbose_scan _ => ["-v"]
  | .scan_with_normal_output _ _ => ["-oN"]
  | .scan_with_xml_output _ _ => ["-oX"]
  | .scan_with_all_formats _ _ => ["-oA"]
  | .nmap_help => ["-h"]
  | .udp_scan _ => ["-sU"]
  | .fin_scan _ => ["-sF"]
  | .xmas_scan _ => ["-sX"]
  | .null_scan _ => ["-sN"]
  | .tcp_connect_scan _ => ["-sT"]
  | .stealth_scan_no_ping _ => ["-sS", "-Pn"]
  | .tcp_connect_scan_no_ping _ => ["-sT", "-Pn"]
  | .udp_scan_no_ping _ => ["-sU", "-Pn"]
  | .service_version_scan_no_ping _ => ["-sV", "-Pn"]
  | .aggressive_scan_no_ping _ => ["-A", "-Pn"]
  | .port_scan_no_ping _ _ => ["-p", "-Pn"]
  | .fin_scan_no_ping _ => ["-sF", "-Pn"]
  | .xmas_scan_no_ping _ => ["-sX", "-Pn"]
  | .null_scan_no_ping _ => ["-sN", "-Pn"]
  | .top_ports_scan_no_ping _ _ => ["--top-ports", "-Pn"]

/-- The operations whose builders hand every user value to the vector as
its own untouched element: everything except the four vulscan operations
(which embed values inside the single `--script-args` element) and
`scan_multiple_hosts` (which splits its input into several elements). -/
def slotFaithful : Op → Bool
  | .vulscan_basic _ _ => false
  | .vulscan_output_limit _ _ _ => false
  | .vulscan_interactive _ _ => false
  | .vulscan_custom_output _ _ _ => false
  | .scan_multiple_hosts _ => false
  | _ => true

/-! ### Helper lemmas -/

theorem length_pos_of_ne_empty (s : String) (h : s ≠ "") : 0 < s.length := by
  cases s with
  | mk d =>
    cases d with
    | nil => simp at h
    | cons c cs => simp [String.length]

theorem ne_empty_of_length_pos (s : String) (h : 0 < s.length) : s ≠ "" := by
  intro he
  rw [he] at h
  simp [String.length] at h

theorem append_ne_empty_left (a b : String) (h : a ≠ "") : a ++ b ≠ "" := by
  apply ne_empty_of_length_pos
  rw [String.length_append]
  have := length_pos_of_ne_empty a h
  omega

theorem append_ne_empty_right (a b : String) (h : b ≠ "") : a ++ b ≠ "" := by
  apply ne_empty_of_length_pos
  rw [String.length_append]
  have := length_pos_of_ne_empty b h
  omega

/-! ### Claim theorems -/

/-- Claim C1 (counterexample): the claim that every user-supplied parameter
value appears as exactly one vector element on its own fails on the code:
`vulscan_basic("127.0.0.1", "cve.csv")` hands the executor a vector in which
the database value `cve.csv` is not an element — it is concatenated with
the `vulscandb=` key and quote characters into the single `--script-args`
value element. -/
theorem claim1_counterexample :
    "cve.csv" ∈ userValues (Op.vulscan_basic "127.0.0.1" "cve.csv") ∧
    (buildArgs (Op.vulscan_basic "127.0.0.1" "cve.csv")).count "cve.csv" = 0 := by
  decide

/-- Claim C1 (amended): for every catalog operation except the four vulscan
operations (whose builders embed the database / template values inside the
single `--script-args` element) and `scan_multiple_hosts` (whose builder
splits its host list into one element per host), the built argument vector
is, as a multiset, exactly the operation's fixed flags plus its
user-supplied values: every user value occupies its own vector slot and no
element concatenates a user value with flags or other values. -/
theorem claim1_amended (op : Op) (v : String) (h : slotFaithful op = true) :
    (buildArgs op).count v = (opFlags op).count v + (userValues op).count v := by
  cases op <;> simp [slotFaithful] at h <;>
    simp [buildArgs, opFlags, userValues, List.count_cons, List.count_nil] <;>
    omega

/-- Witness for `claim1_amended` at `port_scan("127.0.0.1", "80,443")` and
the value `"80,443"`. -/
theorem claim1_amended_witness :
    slotFaithful (Op.port_scan "127.0.0.1" "80,443") = true ∧
    (buildArgs (Op.port_scan "127.0.0.1" "80,443")).count "80,443" =
      (opFlags (Op.port_scan "127.0.0.1" "80,443")).count "80,443" +
      (userValues (Op.port_scan "127.0.0.1" "80,443")).count "80,443" :=
  ⟨by decide, claim1_amended _ _ (by decide)⟩

/-- Claim C2: every catalog operation reaches `subprocess.run` as an
argument vector headed by the fixed binary name `nmap`, with no shell
interpretation; only the raw-command path (`execute_custom_nmap_command`)
runs through the shell. -/
theorem claim2_catalog_never_shell :
    (∀ op : Op, (catalogRequest op).usesShell = false ∧
      (catalogRequest op).invocation = .argVector ("nmap" :: buildArgs op)) ∧
    (∀ command : String, (rawRequest command).usesShell = true) :=
  ⟨fun _ => ⟨rfl, rfl⟩, fun _ => rfl⟩

/-- Claim C3: whenever a catalog execution fails (timeout or raised
exception), `run_nmap_command` returns a non-empty text that opens with the
failure statement `"Error running Nmap: "` and carries the underlying
exception message (for a timeout, the `TimeoutExpired` message); it never
returns empty output to signal failure. -/
theorem claim3_failed_execution_text (args : List String) (outcome : ProcOutcome)
    (h : outcome.isFailure = true) :
    runNmapCommand args outcome ≠ "" ∧
    (∃ rest, runNmapCommand args outcome = "Error running Nmap: " ++ rest) ∧
    (∀ m, outcome = .raised m →
      runNmapCommand args outcome = "Error running Nmap: " ++ m) ∧
    (∀ p, outcome = .timedOut p →
      runNmapCommand args outcome =
        "Error running Nmap: " ++ timeoutExpiredMsg ("nmap" :: args) 60) := by
  cases outcome with
  | completed stdout stderr exitCode => simp [ProcOutcome.isFailure] at h
  | timedOut p =>
    refine ⟨append_ne_empty_left _ _ (by decide), ⟨_, rfl⟩, ?_, ?_⟩
    · intro m hm
      exact ProcOutcome.noConfusion hm
    · intro p' _
      rfl
  | raised m =>
    refine ⟨append_ne_empty_left _ _ (by decide), ⟨_, rfl⟩, ?_, ?_⟩
    · intro m' hm
      cases hm
      rfl
    · intro p' hp
      exact ProcOutcome.noConfusion hp

/-- Witness for `claim3_failed_execution_text` at a raised exception. -/
theorem claim3_witness :
    (ProcOutcome.raised "boom").isFailure = true ∧
    (runNmapCommand [] (ProcOutcome.raised "boom") ≠ "" ∧
     (∃ rest, runNmapCommand [] (ProcOutcome.raised "boom") =
       "Error running Nmap: " ++ rest) ∧
     (∀ m, ProcOutcome.raised "boom" = ProcOutcome.raised m →
       runNmapCommand [] (ProcOutcome.raised "boom") = "Error running Nmap: " ++ m) ∧
     (∀ p, ProcOutcome.raised "boom" = ProcOutcome.timedOut p →
       runNmapCommand [] (ProcOutcome.raised "boom") =
         "Error running Nmap: " ++ timeoutExpiredMsg ["nmap"] 60)) :=
  ⟨by decide, claim3_failed_execution_text [] (ProcOutcome.raised "boom") (by decide)⟩

/-- Claim C4: every catalog operation's request carries the 60-second
deadline; on expiry the returned text is the timeout failure message
(mentioning `"timed out after 60 seconds"`), and it is independent of
whatever partial stdout the expired process had produced — no partial
output is surfaced. -/
theorem claim4_timeout_deadline (op : Op) (args : List String) (p q : String) :
    (catalogRequest op).timeoutSeconds = 60 ∧
    runNmapCommand args (.timedOut p) = runNmapCommand args (.timedOut q) ∧
    (∃ pre, runNmapCommand args (.timedOut p) =
      pre ++ "timed out after 60 seconds") := by
  refine ⟨rfl, rfl,
    ⟨"Error running Nmap: Command \x27" ++ pyListRepr ("nmap" :: args) ++ "\x27 ", ?_⟩⟩
  simp only [runNmapCommand, timeoutExpiredMsg, String.append_assoc]
  rw [← String.append_assoc "Error running Nmap: " "Command \x27"]
  rfl

/-- Claim C5: a completed process is never treated as an error by the
catalog path: `run_nmap_command` returns the captured stdout whatever the
exit code, and neither the exit code nor stderr alters the result. -/
theorem claim5_nonzero_exit_not_error (args : List String) (stdout e1 e2 : String)
    (c1 c2 : Int) :
    runNmapCommand args (.completed stdout e1 c1) = stdout ∧
    runNmapCommand args (.completed stdout e1 c1) =
      runNmapCommand args (.completed stdout e2 c2) ∧
    (ProcOutcome.completed stdout e1 c1).isFailure = false :=
  ⟨rfl, rfl, rfl⟩

/-- Claim C6: on both execution paths every fault of the process call is
caught at the boundary and converted into a non-empty descriptive text —
the catalog path returns `"Error running Nmap: "` plus the exception
message, the raw path returns its own timeout / error texts — and every
call returns a result value (both model functions are total on all
outcomes). -/
theorem claim6_faults_never_propagate (args : List String) (msg p : String) :
    runNmapCommand args (.raised msg) = "Error running Nmap: " ++ msg ∧
    runNmapCommand args (.raised msg) ≠ "" ∧
    runNmapCommand args (.timedOut p) ≠ "" ∧
    executeCustomNmapCommand (.raised msg) = "Error executing command: " ++ msg ∧
    executeCustomNmapCommand (.raised msg) ≠ "" ∧
    executeCustomNmapCommand (.timedOut p) =
      "Error: Command timed out after 120 seconds" :=
  ⟨rfl, append_ne_empty_left _ _ (by decide), append_ne_empty_left _ _ (by decide),
   rfl, append_ne_empty_left _ _ (by decide), rfl⟩

/-- Claim C7: for every executor response and every non-negative limit N,
`vulscan_output_limit` returns exactly the first N lines of the response
text, in order (re-joined with newlines), the truncation being applied to
the text returned by `run_nmap_command` after execution. -/
theorem claim7_first_n_lines (target database : String) (limit : Int)
    (stdout stderr : String) (exitCode : Int) (h : 0 ≤ limit) :
    vulscanOutputLimitRun target database limit
        (.completed stdout stderr exitCode) =
      String.intercalate "\n" ((pySplitlines stdout).take limit.toNat) := by
  simp [vulscanOutputLimitRun, runNmapCommand, pySlicePrefix, h]

/-- Witness for `claim7_first_n_lines` at limit 2 over a three-line
response. -/
theorem claim7_witness :
    (0 : Int) ≤ 2 ∧
    vulscanOutputLimitRun "127.0.0.1" "cve.csv" 2
        (.completed "l1\nl2\nl3" "" 0) =
      String.intercalate "\n" ((pySplitlines "l1\nl2\nl3").take (2 : Int).toNat) :=
  ⟨by decide, claim7_first_n_lines "127.0.0.1" "cve.csv" 2 "l1\nl2\nl3" "" 0 (by decide)⟩

/-- Claim C8: the raw path's result on a completed command is the
concatenation of the stdout section (when stdout is non-empty), the stderr
section (when stderr is non-empty) and the exit-code line (when the exit
code is non-zero), and the "no output" sentinel appears exactly when all
three are absent; in particular a command exiting non-zero with no output
(such as `false`) yields the exit-code line, not the sentinel. -/
theorem claim8_raw_result_format :
    (∀ (stdout stderr : String) (exitCode : Int),
      executeCustomNmapCommand (.completed stdout stderr exitCode) =
        if stdout = "" ∧ stderr = "" ∧ exitCode = 0 then noOutputSentinel
        else
          (if stdout = "" then "" else "STDOUT:\n" ++ stdout ++ "\n") ++
          (if stderr = "" then "" else "STDERR:\n" ++ stderr ++ "\n") ++
          (if exitCode = 0 then "" else "Return Code: " ++ toString exitCode ++ "\n")) ∧
    executeCustomNmapCommand (.completed "" "" 1) = "Return Code: 1\n" ∧
    executeCustomNmapCommand (.completed "" "" 1) ≠ noOutputSentinel := by
  refine ⟨?_, by decide, by decide⟩
  intro stdout stderr exitCode
  by_cases hs : stdout = "" <;> by_cases he : stderr = "" <;>
    by_cases hc : exitCode = 0 <;>
    simp only [executeCustomNmapCommand, hs, he, hc, if_true, if_false, ite_true,
      ite_false, if_neg, String.append_empty, String.empty_append, and_true,
      and_false, true_and, false_and, not_true, not_false_iff] <;>
    simp [hs, he, hc] <;>
    first
      | exact fun hemp => absurd hemp (append_ne_empty_right _ _ (by decide))
      | exact fun hemp => absurd hemp
          (append_ne_empty_right _ _ (append_ne_empty_right _ _ (by decide)))

/-- Claim C9: catalog dispatch is deterministic: the argument vector (and
hence the request) built from an operation's inputs is always the same, and
all post-processing is pure, so two invocations whose executors answer the
operation's single request identically produce identical results. -/
theorem claim9_dispatch_deterministic (op : Op) (ex1 ex2 : ExecRequest → ProcOutcome)
    (h : ex1 (catalogRequest op) = ex2 (catalogRequest op)) :
    dispatchCatalog op ex1 = dispatchCatalog op ex2 := by
  cases op <;> simp only [dispatchCatalog] <;> rw [h]

/-- Witness for `claim9_dispatch_deterministic` with a constant executor. -/
theorem claim9_witness :
    (fun _ : ExecRequest => ProcOutcome.completed "ok" "" 0)
        (catalogRequest (Op.simple_scan "127.0.0.1")) =
      (fun _ : ExecRequest => ProcOutcome.completed "ok" "" 0)
        (catalogRequest (Op.simple_scan "127.0.0.1")) ∧
    dispatchCatalog (Op.simple_scan "127.0.0.1")
        (fun _ => ProcOutcome.completed "ok" "" 0) =
      dispatchCatalog (Op.simple_scan "127.0.0.1")
        (fun _ => ProcOutcome.completed "ok" "" 0) :=
  ⟨rfl, claim9_dispatch_deterministic (Op.simple_scan "127.0.0.1") _ _ rfl⟩

/-- Claim C10 (counterexample): the truncation does follow list-slice
semantics, but a response of fewer than `limit` lines is not returned
whole: a trailing line break is lost in the split / re-join, so for the
one-line response `"line1\n"` and limit 10 the result is `"line1"`, not
the whole response. -/
theorem claim10_counterexample :
    (pySplitlines "line1\n").length < 10 ∧
    vulscanOutputLimitRun "127.0.0.1" "cve.csv" 10
      (.completed "line1\n" "" 0) = "line1" ∧
    vulscanOutputLimitRun "127.0.0.1" "cve.csv" 10
      (.completed "line1\n" "" 0) ≠ "line1\n" := by
  decide

/-- Claim C10 (amended): `vulscan_output_limit`'s truncation follows
Python list-slice semantics rather than a guarded prefix: if the response
has at most `limit` lines, all of its lines are returned (re-joined with
newlines, so the exact line terminators of the response are not
preserved); if `limit` is 0 the result is the empty string; if `limit` is
negative the result is all lines except the last `|limit|` ones; no input
is rejected — the function is total. -/
theorem claim10_amended (target database stdout stderr : String)
    (exitCode limit : Int) :
    (0 ≤ limit → (pySplitlines stdout).length ≤ limit.toNat →
      vulscanOutputLimitRun target database limit
          (.completed stdout stderr exitCode) =
        String.intercalate "\n" (pySplitlines stdout)) ∧
    (limit = 0 →
      vulscanOutputLimitRun target database limit
          (.completed stdout stderr exitCode) = "") ∧
    (limit < 0 →
      vulscanOutputLimitRun target database limit
          (.completed stdout stderr exitCode) =
        String.intercalate "\n"
          ((pySplitlines stdout).take
            ((pySplitlines stdout).length - (-limit).toNat))) := by
  refine ⟨?_, ?_, ?_⟩
  · intro h0 hlen
    simp [vulscanOutputLimitRun, runNmapCommand, pySlicePrefix, h0,
      List.take_of_length_le hlen]
  · intro h0
    subst h0
    simp only [vulscanOutputLimitRun, runNmapCommand]
    rw [show ∀ l, pySlicePrefix l 0 = [] from fun l => by simp [pySlicePrefix]]
    rfl
  · intro hneg
    simp only [vulscanOutputLimitRun, runNmapCommand, pySlicePrefix]
    rw [if_neg (by omega)]

/-- Witness for `claim10_amended`: the three slice behaviours at concrete
inputs. -/
theorem claim10_witness :
    ((0 : Int) ≤ 5 ∧ (pySplitlines "a\nb").length ≤ (5 : Int).toNat ∧
      vulscanOutputLimitRun "h" "d" 5 (.completed "a\nb" "" 0) =
        String.intercalate "\n" (pySplitlines "a\nb")) ∧
    vulscanOutputLimitRun "h" "d" 0 (.completed "a\nb" "" 0) = "" ∧
    ((-1 : Int) < 0 ∧
      vulscanOutputLimitRun "h" "d" (-1) (.completed "a\nb" "" 0) =
        String.intercalate "\n"
          ((pySplitlines "a\nb").take
            ((pySplitlines "a\nb").length - (-(-1 : Int)).toNat))) :=
  ⟨⟨by decide, by decide,
    (claim10_amended "h" "d" "a\nb" "" 0 5).1 (by decide) (by decide)⟩,
   (claim10_amended "h" "d" "a\nb" "" 0 0).2.1 rfl,
   ⟨by decide, (claim10_amended "h" "d" "a\nb" "" 0 (-1)).2.2 (by decide)⟩⟩

end McpSecurity
